import Mathlib

/-!
Verification development for the gaussian_splat backend: a shallow embedding of
the job pipeline orchestrator (`core/pipeline.py`), the durable job store
(`jobs/job_manager.py`), the process supervisor (`utils/shell.py`,
`services/longsplat/train.py`), the artifact resolver
(`services/export/to_ply.py`), compression (`services/export/compress.py`),
pre-flight validation (`services/video/validate.py`) and the upload handler
(`api/jobs.py`).

Python effects are made explicit: awaited calls that may raise become `Except
String` oracles supplied through environment records, timestamps become `Nat`
ticks, floats become `ℚ` (all the float literals in this code are short
decimals whose ordering and equalities agree between double precision and the
rationals), and file-system/disk behaviour becomes explicit boolean or
`Except` parameters.
-/

deriving instance DecidableEq for Except

/-- `JobStatus` from `core/models.py`. -/
inductive JobStatus where
  | uploaded
  | validating
  | extracting_frames
  | training
  | exporting
  | compressing
  | completed
  | error
  deriving DecidableEq, Repr

/-- `QualityPreset` from `core/config.py`. -/
inductive QualityPreset where
  | fast
  | balanced
  | quality
  deriving DecidableEq, Repr

/-- `PresetConfig` from `core/config.py` (the two descriptive strings elided). -/
structure PresetConfig where
  fps : ℚ
  iterations : Nat
  resolution : Nat
  init_frames_ratio : ℚ
  estimated_minutes : Nat
  deriving DecidableEq, Repr

/-- `QUALITY_PRESETS` table from `core/config.py`. -/
def QUALITY_PRESETS : QualityPreset → PresetConfig
  | .fast => { fps := 1.0, iterations := 2000, resolution := 2,
               init_frames_ratio := 0.15, estimated_minutes := 5 }
  | .balanced => { fps := 2.0, iterations := 5000, resolution := 1,
                   init_frames_ratio := 0.20, estimated_minutes := 10 }
  | .quality => { fps := 3.0, iterations := 12000, resolution := 1,
                  init_frames_ratio := 0.25, estimated_minutes := 25 }

/-- `QualityPreset(value)` constructor: succeeds on the three enum values. -/
def parseQualityPreset : String → Option QualityPreset
  | "fast" => some .fast
  | "balanced" => some .balanced
  | "quality" => some .quality
  | _ => none

/-- `VideoValidation` from `core/models.py`. -/
structure VideoValidation where
  valid : Bool
  duration : Option ℚ := none
  width : Option Nat := none
  height : Option Nat := none
  fps : Option ℚ := none
  errors : List String := []
  warnings : List String := []
  deriving DecidableEq, Repr

/-- `Job` from `core/models.py`. Timestamps are `Nat` ticks. -/
structure Job where
  job_id : String
  status : JobStatus
  video_filename : String
  created_at : Nat
  updated_at : Nat
  error_message : Option String := none
  progress : ℚ := 0.0
  model_filename : Option String := none
  model_url : Option String := none
  model_url_compressed : Option String := none
  quality_preset : QualityPreset := .balanced
  validation : Option VideoValidation := none
  estimated_minutes : Option Nat := none
  deriving DecidableEq, Repr

/-- Python dict assignment `d[k] = v` on an association list: replaces the
binding when the key is present, appends it otherwise. -/
def insertAssoc (l : List (String × Job)) (k : String) (v : Job) : List (String × Job) :=
  if l.any (fun p => p.1 = k) then
    l.map (fun p => if p.1 = k then (k, v) else p)
  else
    l ++ [(k, v)]

/-- State of a `JobManager` (`jobs/job_manager.py`): the in-memory `self.jobs`
dict and the contents of the durable `jobs.json` file (`none` when the file has
never been written). -/
structure JMState where
  jobs : List (String × Job)
  file : Option (List (String × Job))
  deriving DecidableEq, Repr

/-- `JobManager._save_jobs`: serializes the whole in-memory map and rewrites
the store file. `writeOk` is the behaviour of the underlying file write; a
write failure is caught and logged (`logger.error("Failed to save jobs: ...")`),
returned here as the second component, and the function returns normally
either way. -/
def saveJobs (writeOk : Bool) (st : JMState) : JMState × Option String :=
  ({ st with file := if writeOk then some st.jobs else st.file },
   if writeOk then none else some "Failed to save jobs")

/-- `JobManager.update_job`: refreshes `updated_at`, stores the job in the
in-memory dict, then calls `_save_jobs`. It has no error channel: the Python
function always returns `None`, since `_save_jobs` swallows write failures.
Returns the new manager state, the job as stored, and the swallowed log
message (if any). -/
def updateJob (now : Nat) (writeOk : Bool) (job : Job) (st : JMState) :
    JMState × Job × Option String :=
  let j := { job with updated_at := now }
  let st1 : JMState := { st with jobs := insertAssoc st.jobs j.job_id j }
  let (st2, log) := saveJobs writeOk st1
  (st2, j, log)

/-- `JobManager.create_job`: fresh job with status `uploaded`, stored and
saved. The uuid is supplied as `newId`. -/
def createJob (newId : String) (now : Nat) (writeOk : Bool)
    (video_filename : String) (st : JMState) : JMState × Job :=
  let job : Job := { job_id := newId, status := .uploaded,
                     video_filename := video_filename,
                     created_at := now, updated_at := now }
  let st1 : JMState := { st with jobs := insertAssoc st.jobs newId job }
  let (st2, _log) := saveJobs writeOk st1
  (st2, job)

/-- One raw entry of the persisted `jobs.json` file, before the parsing done
in `JobManager._load_jobs`: `status`, `created_at` and `updated_at` are the
raw strings that `JobStatus(...)` and `datetime.fromisoformat(...)` are applied
to; the remaining modeled fields arrive already typed. -/
structure RawJobEntry where
  job_id : String
  status : String
  created_at : String
  updated_at : String
  video_filename : String
  error_message : Option String := none
  progress : ℚ := 0.0
  quality_preset : QualityPreset := .balanced
  deriving DecidableEq, Repr

/-- `JobStatus(value)` constructor: succeeds exactly on the eight enum string
values, raises `ValueError` otherwise. -/
def JobStatus.fromString : String → Except String JobStatus
  | "uploaded" => .ok .uploaded
  | "validating" => .ok .validating
  | "extracting_frames" => .ok .extracting_frames
  | "training" => .ok .training
  | "exporting" => .ok .exporting
  | "compressing" => .ok .compressing
  | "completed" => .ok .completed
  | "error" => .ok .error
  | s => .error ("not a valid JobStatus: " ++ s)

/-- Parsing of one entry inside the loop of `_load_jobs`:
`JobStatus(job_data["status"])`, then `datetime.fromisoformat` on both
timestamps (supplied as the oracle `fromiso`, since ISO-8601 parsing is
standard-library code), then `Job(**job_data)`. -/
def parseJobEntry (fromiso : String → Except String Nat) (e : RawJobEntry) :
    Except String Job := do
  let st ← JobStatus.fromString e.status
  let c ← fromiso e.created_at
  let u ← fromiso e.updated_at
  pure { job_id := e.job_id, status := st, video_filename := e.video_filename,
         created_at := c, updated_at := u, error_message := e.error_message,
         progress := e.progress, quality_preset := e.quality_preset }

/-- The `for job_id, job_data in data.items()` loop of `_load_jobs`. The
single `try/except` sits OUTSIDE the loop in the source, so a parse failure
returns immediately with the entries accumulated so far plus the logged
warning; the remaining entries are never examined. -/
def loadJobsLoop (fromiso : String → Except String Nat) :
    List (String × RawJobEntry) → List (String × Job) →
    List (String × Job) × Option String
  | [], acc => (acc, none)
  | (i, e) :: rest, acc =>
    match parseJobEntry fromiso e with
    | .ok j => loadJobsLoop fromiso rest (insertAssoc acc i j)
    | .error msg => (acc, some ("Failed to load jobs: " ++ msg))

/-- `JobManager._load_jobs`: nothing loaded when the file does not exist,
otherwise the loop above over its entries. (A failure of `json.load` itself
would likewise be caught by the same outer `except`; it is subsumed by an
entry-level failure on the first entry.) -/
def loadJobs (fromiso : String → Except String Nat)
    (file : Option (List (String × RawJobEntry))) :
    List (String × Job) × Option String :=
  match file with
  | none => ([], none)
  | some data => loadJobsLoop fromiso data []

/-- Behaviour of one external process, for `run_command` in `utils/shell.py`:
how long it would run before exiting on its own, and what it would produce. -/
structure ProcBehavior where
  runtime : Nat
  returncode : Int
  stdout : String
  stderr : String
  deriving DecidableEq, Repr

/-- The two exception kinds `run_command` can raise: `subprocess.CalledProcessError`
(non-zero exit) and `asyncio.TimeoutError` (re-raised from `asyncio.wait_for`).
They are distinct constructors. -/
inductive RunError where
  | calledProcessError (returncode : Int) (cmd : List String) (stdout stderr : String)
  | timeoutError
  deriving DecidableEq, Repr

/-- Result of a `run_command` call, together with whether the supervisor ever
invoked a forced termination (`process.kill()`) on the child. -/
structure RunOutput where
  result : Except RunError (String × String)
  killed : Bool
  deriving DecidableEq, Repr

/-- `run_command` from `utils/shell.py`. With a timeout, `asyncio.wait_for`
raises `TimeoutError` when the process needs longer than the allotted time;
the except branches only log and re-raise — the source contains no
`process.kill()`/`terminate()` call on any path, so `killed` is `false`
everywhere. Without a timeout (or within it), a non-zero exit raises
`CalledProcessError(returncode, cmd, stdout, stderr)`, otherwise the decoded
`(stdout, stderr)` pair is returned. -/
def run_command (cmd : List String) (timeout : Option Nat) (p : ProcBehavior) :
    RunOutput :=
  match timeout with
  | some t =>
    if t < p.runtime then
      { result := .error .timeoutError, killed := false }
    else if p.returncode ≠ 0 then
      { result := .error (.calledProcessError p.returncode cmd p.stdout p.stderr),
        killed := false }
    else
      { result := .ok (p.stdout, p.stderr), killed := false }
  | none =>
    if p.returncode ≠ 0 then
      { result := .error (.calledProcessError p.returncode cmd p.stdout p.stderr),
        killed := false }
    else
      { result := .ok (p.stdout, p.stderr), killed := false }

/-- A child process that had not yet exited when the supervisor reported a
timeout, and that the supervisor did not kill, is still running afterward. -/
def processLeftRunning (timedOut : Bool) (killed : Bool) : Bool :=
  timedOut && !killed

/-- Environment for `train_longsplat` (`services/longsplat/train.py`): the
outcome of each effectful step the function performs, in source order. -/
structure TrainEnv where
  gpuOk : Bool
  gpuMsg : String
  repoSetupOk : Bool
  depsOk : Bool
  depsErr : String
  scenePrepOk : Bool
  trainScriptExists : Bool
  timedOut : Bool
  returncode : Int
  logTailRead : Except String String
  pointCloudOk : Bool
  deriving Repr

/-- Result of `train_longsplat`: the returned boolean, whether the child
process was forcibly killed, and the `logger.error` messages emitted (the
diagnostics relevant to the claims; informational logging elided). -/
structure TrainResult where
  success : Bool
  killedProcess : Bool
  logged : List String
  deriving DecidableEq, Repr

/-- `train_longsplat` from `services/longsplat/train.py`. The whole body is in
one `try/except` that returns `False` on any exception, so the function never
raises. Steps in source order: GPU check (raises `RuntimeError` on mismatch),
repository setup, dependency import diagnostics (raises on `ImportError`),
scene-directory preparation, `train.py` existence, then the training process
itself with a 4-hour timeout — on timeout it calls `process.kill()` and
re-raises; on a non-zero exit it reads and logs the last 200 log lines
("Training Log Tail") and raises `CalledProcessError`; finally the
point-cloud existence check. -/
def trainLongsplat (e : TrainEnv) : TrainResult :=
  if !e.gpuOk then
    { success := false, killedProcess := false,
      logged := [e.gpuMsg, "LongSplat training failed: " ++ e.gpuMsg] }
  else if !e.repoSetupOk then
    { success := false, killedProcess := false,
      logged := ["Failed to setup LongSplat repository"] }
  else if !e.depsOk then
    { success := false, killedProcess := false,
      logged := ["Dependency diagnostic failed: " ++ e.depsErr,
                 "LongSplat training failed: Critical dependency missing: " ++ e.depsErr] }
  else if !e.scenePrepOk then
    { success := false, killedProcess := false,
      logged := ["Failed to prepare scene directory"] }
  else if !e.trainScriptExists then
    { success := false, killedProcess := false,
      logged := ["LongSplat train.py not found"] }
  else if e.timedOut then
    { success := false, killedProcess := true,
      logged := ["LongSplat training timed out after 14400 seconds"] }
  else if e.returncode ≠ 0 then
    let tailLog :=
      match e.logTailRead with
      | .ok tail => "Training Log Tail:\n" ++ tail
      | .error readErr => "Could not read log tail: " ++ readErr
    { success := false, killedProcess := false,
      logged := ["Training failed with return code " ++ toString e.returncode,
                 tailLog,
                 "Training command failed"] }
  else if !e.pointCloudOk then
    { success := false, killedProcess := false,
      logged := ["Point cloud not generated"] }
  else
    { success := true, killedProcess := false, logged := [] }

/-- Behaviour of the file operations inside `compress_ply_gzip`
(`services/export/compress.py`): whether `input_path.stat()` succeeds, whether
opening/copying to the gzip output succeeds, and the two observed sizes. -/
structure CompressEnv where
  statOk : Bool
  writeOk : Bool
  originalSize : Nat
  compressedSize : Nat
  deriving DecidableEq, Repr

/-- `compress_ply_gzip` from `services/export/compress.py`. The body is one
`try/except Exception` that returns the ORIGINAL `input_path` on any failure,
so the function is total and never raises. Failure modes inside the try block:
`stat` on a missing input, the gzip write, and the reduction-ratio computation
`(1 - compressed/original) * 100`, which raises `ZeroDivisionError` when the
input file is empty (`original_size == 0`). -/
def compressPlyGzip (e : CompressEnv) (input_path : String)
    (output_path : Option String) : String :=
  let out := output_path.getD (input_path ++ ".gz")
  if e.statOk && e.writeOk && decide (e.originalSize ≠ 0) then out else input_path

/-- `suffix.endswith(t)` / glob extension match, structurally on the
character data. -/
def strEndsWith (s t : String) : Bool := List.isSuffixOf t.data s.data

/-- Codepoint-wise lexicographic string comparison (Python `<` on `str`, and
the component order of `Path` sorting, which coincides with it on the
relative paths this development evaluates). -/
def listLtChars : List Char → List Char → Bool
  | [], [] => false
  | [], _ :: _ => true
  | _ :: _, [] => false
  | a :: as, b :: bs =>
    if a.toNat < b.toNat then true
    else if b.toNat < a.toNat then false
    else listLtChars as bs

/-- Python `s < t` on strings. -/
def strLt (s t : String) : Bool := listLtChars s.data t.data

/-- Split a character list at every occurrence of `c`. -/
def splitChar (c : Char) : List Char → List (List Char)
  | [] => [[]]
  | x :: xs =>
    let r := splitChar c xs
    if x = c then [] :: r
    else
      match r with
      | h :: t => (x :: h) :: t
      | [] => [[x]]

/-- `str.lower()` for the ASCII file suffixes this code lowercases. -/
def asciiLowerChar (c : Char) : Char :=
  if 65 ≤ c.toNat ∧ c.toNat ≤ 90 then Char.ofNat (c.toNat + 32) else c

/-- `str.lower()` on a whole string. -/
def asciiLower (s : String) : String := String.mk (s.data.map asciiLowerChar)

/-- Python `sep.join(parts)`. -/
def joinSep (sep : String) : List String → String
  | [] => ""
  | [x] => x
  | x :: xs => x ++ sep ++ joinSep sep xs

/-- A path with no directory separator lives at the root of the searched
directory (Python `Path.glob` versus `Path.rglob`). -/
def isRootPath (p : String) : Bool := !(p.data.contains '/')

/-- Final path component (`Path.name`). -/
def pathBasename (p : String) : String :=
  String.mk ((splitChar '/' p.data).getLastD p.data)

/-- `sorted(paths)[-1]`: the lexicographically last element. -/
def lexLast (l : List String) : Option String :=
  l.foldl (fun acc p =>
    match acc with
    | none => some p
    | some q => some (if strLt q p then p else q)) none

/-- `export_to_ply` from `services/export/to_ply.py`, over a directory tree
given as the list of relative file paths under `model_dir`. Search order from
the source: (1) `model_dir.glob("*.ply")` — ANY `.ply` file at the directory
root; (2) `model_dir.rglob("point_cloud.ply")`; (3) `model_dir.rglob("*.ply")`.
The lexicographically last match of the first non-empty step is selected (and
then copied to `model_dir.parent / f"{job_id}.ply"`; we return the selected
source path). With no candidate it raises
`FileNotFoundError(f"No PLY file found in {model_dir}")`; the full directory
listing is emitted via `logger.error` only, not placed in the exception. -/
def export_to_ply (fs : List String) (model_dir : String) : Except String String :=
  let step1 := fs.filter (fun p => isRootPath p && strEndsWith p ".ply")
  let ply_files :=
    if step1.isEmpty then
      let step2 := fs.filter (fun p => pathBasename p = "point_cloud.ply")
      if step2.isEmpty then fs.filter (fun p => strEndsWith p ".ply") else step2
    else step1
  match lexLast ply_files with
  | some src => .ok src
  | none => .error ("No PLY file found in " ++ model_dir)

/-- The artifact resolver as the SPEC describes it (for comparison with
`export_to_ply`): ordered fallback — (1) the exact expected filename at the
directory root; (2) recursive search for the canonical basename
`point_cloud.ply`; (3) recursive search for the `.ply` extension — selecting
the lexicographically last match of the first non-empty step. -/
def resolverSpec (expected : String) (fs : List String) : Option String :=
  if fs.contains expected && isRootPath expected then
    some expected
  else
    let s2 := fs.filter (fun p => pathBasename p = "point_cloud.ply")
    if !s2.isEmpty then lexLast s2
    else lexLast (fs.filter (fun p => strEndsWith p ".ply"))

/-- `bool(ply_path)` for a `pathlib.Path` value: a `Path` instance is always
truthy, so the guard `if not ply_path:` in `process_job` can never fire when
`export_to_ply` returns (it either returns a `Path` or raises). -/
def pathIsFalsy (_p : String) : Bool := false

/-- Environment for one `process_job` run (`core/pipeline.py`): the behaviour
of every effectful collaborator it awaits, plus the store's disk-write
behaviour per write (`writeOk k` is the outcome of the k-th store write) and
the `settings.COMPRESS_OUTPUT` configuration flag. -/
structure StageEnv where
  writeOk : Nat → Bool
  extractFrames : Except String Unit
  trainEnv : TrainEnv
  exportPly : Except String String
  compressExecutor : Except String Unit
  compressEnv : CompressEnv
  objExport : Except String String
  compressEnabled : Bool

/-- Accumulator threaded through `process_job`: the store state, the sequence
of job snapshots persisted so far (one per `update_job` call), and the write
counter (also used as the clock for `updated_at`). -/
structure StepCtx where
  jm : JMState
  trace : List Job
  k : Nat

/-- One `await job_manager.update_job(job)` call inside `process_job`. -/
def pushUpdate (env : StageEnv) (c : StepCtx) (j : Job) : StepCtx × Job :=
  let (jm2, j2, _log) := updateJob c.k (env.writeOk c.k) j c.jm
  ({ jm := jm2, trace := c.trace ++ [j2], k := c.k + 1 }, j2)

/-- The `except Exception` handler at the bottom of `process_job`: sets
`status = ERROR` and `error_message = str(e)` on the job as it stood at the
raise site, persists it, and returns it. -/
def pipelineErrorExit (env : StageEnv) (c : StepCtx) (j : Job) (msg : String) :
    Job × List Job × JMState :=
  let j1 := { j with status := JobStatus.error, error_message := some msg }
  let (c1, j2) := pushUpdate env c j1
  (j2, c1.trace, c1.jm)

/-- `process_job` from `core/pipeline.py`, in direct style: each awaited call
that can raise routes to `pipelineErrorExit` (the single `try/except` wrapping
the whole body). The function is total — mirroring that the Python function
catches every `Exception` and always returns the job. Returns the final job,
the list of persisted snapshots in order, and the final store state. -/
def process_job (env : StageEnv) (st0 : JMState) (job0 : Job) :
    Job × List Job × JMState :=
  let c0 : StepCtx := { jm := st0, trace := [], k := 0 }
  -- preset = job.quality_preset or QualityPreset.BALANCED; QUALITY_PRESETS[preset]
  let _preset_config := QUALITY_PRESETS job0.quality_preset
  let j := { job0 with status := JobStatus.extracting_frames, progress := 0.1 }
  let (c, j) := pushUpdate env c0 j
  match env.extractFrames with
  | .error e => pipelineErrorExit env c j e
  | .ok () =>
    let j := { j with status := JobStatus.training, progress := 0.3 }
    let (c, j) := pushUpdate env c j
    -- training_success = await train_longsplat(...); if not training_success: raise
    if !(trainLongsplat env.trainEnv).success then
      pipelineErrorExit env c j "LongSplat training failed. Check logs for details."
    else
      let j := { j with status := JobStatus.exporting, progress := 0.85 }
      let (c, j) := pushUpdate env c j
      match env.exportPly with
      | .error e => pipelineErrorExit env c j e
      | .ok ply_path =>
        if pathIsFalsy ply_path then
          pipelineErrorExit env c j "Failed to export PLY file"
        else
          let j := { j with status := JobStatus.compressing, progress := 0.92 }
          let (c, j) := pushUpdate env c j
          -- if settings.COMPRESS_OUTPUT: try: ... except: warn (soft)
          let j :=
            if env.compressEnabled then
              match env.compressExecutor with
              | .ok () =>
                let _compressed := compressPlyGzip env.compressEnv ply_path none
                { j with model_url_compressed :=
                          some ("/static/models/" ++ j.job_id ++ ".ply.gz") }
              | .error _e => j
            else j
          let j := { j with progress := 0.95 }
          let (c, j) := pushUpdate env c j
          -- try: export_to_obj ... except: warn (soft, never touches the job)
          let j :=
            match env.objExport with
            | .ok _obj => j
            | .error _e => j
          let j := { j with
                       status := JobStatus.completed
                       progress := 1.0
                       model_filename := some (j.job_id ++ ".ply")
                       model_url := some ("/static/models/" ++ j.job_id ++ ".ply") }
          let (c, j) := pushUpdate env c j
          (j, c.trace, c.jm)

/-- Final job of a `process_job` run. -/
def pjJob (env : StageEnv) (st0 : JMState) (job0 : Job) : Job :=
  (process_job env st0 job0).1

/-- Persisted snapshot sequence of a `process_job` run. -/
def pjTrace (env : StageEnv) (st0 : JMState) (job0 : Job) : List Job :=
  (process_job env st0 job0).2.1

/-- An environment whose frame-extraction, training and PLY-export stages all
succeed (the compression and OBJ steps are soft and unconstrained). -/
def StageSuccess (env : StageEnv) : Prop :=
  env.extractFrames = .ok () ∧ (trainLongsplat env.trainEnv).success = true ∧
    ∃ p, env.exportPly = .ok p

/-- `VideoInfo` from `services/video/validate.py`. -/
structure VideoInfo where
  duration : ℚ
  width : Nat
  height : Nat
  fps : ℚ
  codec : String
  file_size : Nat
  deriving DecidableEq, Repr

/-- The validation-relevant fields of `Settings` (`core/config.py`), with the
source defaults; `pydantic_settings` may override them from the environment,
so they are passed explicitly. -/
structure Settings where
  MIN_VIDEO_DURATION : ℚ := 3
  MAX_VIDEO_DURATION : ℚ := 300
  MIN_VIDEO_RESOLUTION : Nat := 480
  MAX_VIDEO_RESOLUTION : Nat := 4096
  MAX_UPLOAD_SIZE : Nat := 500 * 1024 * 1024
  ALLOWED_EXTENSIONS : List String := [".mp4", ".mov", ".avi", ".webm"]
  COMPRESS_OUTPUT : Bool := true
  deriving Repr

/-- The default `Settings()` values. -/
def defaultSettings : Settings := {}

/-- Python `f"{q:.1f}"` / `str(q)` for the non-negative one-decimal rationals
this development formats (durations and the fixed thresholds); at such values
truncation and Python's rounding agree. -/
def fmt1 (q : ℚ) : String :=
  let n : Int := Int.fdiv (q.num * 10) q.den
  toString (Int.fdiv n 10) ++ "." ++ toString (n % 10).natAbs

/-- Python `int(q)` (truncation toward zero). -/
def pyInt (q : ℚ) : Int := Int.tdiv q.num q.den

/-- `int(duration * 2)`, the estimated frame count at 2 FPS (truncation of
the unreduced fraction equals truncation of the product). -/
def estimatedFrames (d : ℚ) : Int := Int.tdiv (d.num * 2) d.den

/-- `get_video_info` from `services/video/validate.py`: builds the ffprobe
command and ALWAYS spawns it via `subprocess.run` before anything can fail;
every failure (non-zero exit, no video stream, timeout, parse error) is caught
and returns `None`. `probe` summarizes the probe outcome; the second component
counts the external processes spawned by the call. -/
def get_video_info (probe : Option VideoInfo) : Option VideoInfo × Nat :=
  (probe, 1)

/-- `ValidationResult` from `services/video/validate.py`. -/
structure ValidationResult where
  valid : Bool
  video_info : Option VideoInfo
  errors : List String
  warnings : List String
  deriving DecidableEq, Repr

/-- The error/warning accumulation of `validate_video` once a `VideoInfo` is
in hand, in source order (duration, resolution, even dimensions, fps, file
size, estimated frame count). -/
def validateChecks (s : Settings) (vi : VideoInfo) : ValidationResult :=
  let errors :=
    (if vi.duration < s.MIN_VIDEO_DURATION then
      ["Video too short: " ++ fmt1 vi.duration ++ "s. Minimum: " ++
        fmt1 s.MIN_VIDEO_DURATION ++ "s"] else []) ++
    (if s.MAX_VIDEO_DURATION < vi.duration then
      ["Video too long: " ++ fmt1 vi.duration ++ "s. Maximum: " ++
        fmt1 s.MAX_VIDEO_DURATION ++ "s (5 minutes)"] else []) ++
    (if min vi.width vi.height < s.MIN_VIDEO_RESOLUTION then
      ["Resolution too low: " ++ toString vi.width ++ "x" ++ toString vi.height ++
        ". Minimum: " ++ toString s.MIN_VIDEO_RESOLUTION ++ "p"] else []) ++
    (if s.MAX_UPLOAD_SIZE < vi.file_size then
      ["File too large"] else []) ++
    (if estimatedFrames vi.duration < 10 then
      ["Not enough frames for reconstruction. Video would produce only " ++
        toString (estimatedFrames vi.duration) ++ " frames. Minimum: 10"] else [])
  let warnings :=
    (if s.MAX_VIDEO_RESOLUTION < max vi.width vi.height then
      ["High resolution video will be downscaled for processing"] else []) ++
    (if vi.width % 2 ≠ 0 ∨ vi.height % 2 ≠ 0 then
      ["Video dimensions are odd; may cause encoding issues"] else []) ++
    (if vi.fps < 15 then
      ["Low frame rate may result in lower quality reconstruction"] else []) ++
    (if 60 < vi.fps then
      ["High frame rate - frames will be sampled for efficiency"] else []) ++
    (if 500 < estimatedFrames vi.duration then
      ["Large video. Consider using a shorter clip for faster processing."] else [])
  { valid := errors.isEmpty, video_info := some vi,
    errors := errors, warnings := warnings }

/-- `validate_video` from `services/video/validate.py`, paired with the count
of external processes it spawns: existence check, extension check (both before
any subprocess), then `get_video_info` (which spawns ffprobe), then the checks
above. -/
def validate_video (s : Settings) (fileExists : Bool) (suffix : String)
    (probe : Option VideoInfo) : ValidationResult × Nat :=
  if !fileExists then
    ({ valid := false, video_info := none,
       errors := ["Video file not found"], warnings := [] }, 0)
  else if !(s.ALLOWED_EXTENSIONS.contains (asciiLower suffix)) then
    ({ valid := false, video_info := none,
       errors := ["Unsupported format: " ++ asciiLower suffix ++ ". Allowed: " ++
         joinSep ", " s.ALLOWED_EXTENSIONS], warnings := [] }, 0)
  else
    match get_video_info probe with
    | (none, n) =>
      ({ valid := false, video_info := none,
         errors := ["Could not read video file. File may be corrupted."],
         warnings := [] }, n)
    | (some vi, n) => (validateChecks s vi, n)

/-- Environment for one `upload_video` request (`api/jobs.py`). -/
structure UploadEnv where
  quality_preset : String
  orig_filename : String
  filename_suffix : String
  fileWrite : Except String Unit
  probe : Option VideoInfo
  storeWrites : Nat → Bool

/-- Outcome of an `upload_video` request: either an `HTTPException` with its
status code, or the 200 response (payload elided). -/
inductive UploadOutcome where
  | httpError (code : Nat) (detail : String)
  | accepted (job_id : String)
  deriving DecidableEq, Repr

/-- Observable result of `upload_video`: the HTTP outcome, the job object as
the handler leaves it (`none` when rejected before job creation), the store
state, the number of external processes spawned, and whether
`background_tasks.add_task(process_job, job)` was reached. -/
structure UploadResult where
  outcome : UploadOutcome
  job : Option Job
  jm : JMState
  subprocesses : Nat
  backgroundStarted : Bool

/-- `upload_video` from `api/jobs.py`: preset parse (invalid falls back to
balanced with a warning), extension check (HTTP 400, before job creation),
`create_job` plus preset fields, the upload write (failure takes the handler's
`except` branch: job marked `ERROR`, HTTP 500), then `VALIDATING` + validation
(the file exists at this point, the write having succeeded); an invalid result
marks the job `ERROR` with the joined error list and raises HTTP 400 before
any background processing; a valid one renames, resets to `UPLOADED` and
schedules `process_job` in the background. -/
def upload_video (s : Settings) (env : UploadEnv) (jm0 : JMState)
    (newId : String) (now : Nat) : UploadResult :=
  let preset := (parseQualityPreset env.quality_preset).getD .balanced
  let preset_config := QUALITY_PRESETS preset
  let file_ext := asciiLower env.filename_suffix
  if !(s.ALLOWED_EXTENSIONS.contains file_ext) then
    { outcome := .httpError 400 "Invalid file type", job := none, jm := jm0,
      subprocesses := 0, backgroundStarted := false }
  else
    let (jm1, job) := createJob newId now (env.storeWrites 0) env.orig_filename jm0
    let job := { job with quality_preset := preset,
                          estimated_minutes := some preset_config.estimated_minutes }
    match env.fileWrite with
    | .error e =>
      let job := { job with status := JobStatus.error, error_message := some e }
      let (jm2, job2, _log) := updateJob now (env.storeWrites 1) job jm1
      { outcome := .httpError 500 ("Upload failed: " ++ e), job := some job2,
        jm := jm2, subprocesses := 0, backgroundStarted := false }
    | .ok () =>
      let job := { job with status := JobStatus.validating }
      let (jm2, job, _log) := updateJob now (env.storeWrites 1) job jm1
      let (vres, nproc) := validate_video s true env.filename_suffix env.probe
      let vv : VideoValidation :=
        { valid := vres.valid,
          duration := vres.video_info.map (·.duration),
          width := vres.video_info.map (·.width),
          height := vres.video_info.map (·.height),
          fps := vres.video_info.map (·.fps),
          errors := vres.errors, warnings := vres.warnings }
      let job := { job with validation := some vv }
      if !vres.valid then
        let job := { job with status := JobStatus.error,
                              error_message := some (joinSep "; " vres.errors) }
        let (jm3, job3, _log) := updateJob now (env.storeWrites 2) job jm2
        { outcome := .httpError 400 "Video validation failed", job := some job3,
          jm := jm3, subprocesses := nproc, backgroundStarted := false }
      else
        let job := { job with video_filename := newId ++ file_ext,
                              status := JobStatus.uploaded }
        let (jm3, job3, _log) := updateJob now (env.storeWrites 2) job jm2
        { outcome := .accepted newId, job := some job3, jm := jm3,
          subprocesses := nproc, backgroundStarted := true }

/-- Python `sub in s` (substring test), structurally on the character data. -/
def listInfix (sub : List Char) : List Char → Bool
  | [] => sub.isEmpty
  | x :: xs => List.isPrefixOf sub (x :: xs) || listInfix sub xs

/-- Whether `sub` occurs as a substring of `s`. -/
def strContainsSub (s sub : String) : Bool := listInfix sub.data s.data

/-- A training-stage environment in which every step succeeds. -/
def exTrainEnvOk : TrainEnv :=
  { gpuOk := true, gpuMsg := "", repoSetupOk := true, depsOk := true,
    depsErr := "", scenePrepOk := true, trainScriptExists := true,
    timedOut := false, returncode := 0, logTailRead := .ok "",
    pointCloudOk := true }

/-- A training-stage environment in which the training process exits with
code 1 and the log tail reads "CUDA error: out of memory". -/
def exTrainEnvFail : TrainEnv :=
  { exTrainEnvOk with returncode := 1,
                      logTailRead := .ok "CUDA error: out of memory" }

/-- A pipeline environment in which every stage succeeds and compression is
enabled. -/
def exStageEnvOk : StageEnv :=
  { writeOk := fun _ => true, extractFrames := .ok (), trainEnv := exTrainEnvOk,
    exportPly := .ok "model.ply", compressExecutor := .ok (),
    compressEnv := { statOk := true, writeOk := true,
                     originalSize := 100, compressedSize := 40 },
    objExport := .ok "m.obj", compressEnabled := true }

/-- `exStageEnvOk` with compression disabled by configuration. -/
def exStageEnvNoCompress : StageEnv :=
  { exStageEnvOk with compressEnabled := false }

/-- `exStageEnvOk` with a failing training stage. -/
def exStageEnvTrainFail : StageEnv :=
  { exStageEnvOk with trainEnv := exTrainEnvFail }

/-- A freshly created job, as `upload_video` hands it to the pipeline. -/
def exJob : Job :=
  { job_id := "job1", status := .uploaded, video_filename := "v.mp4",
    created_at := 0, updated_at := 0, progress := 0 }

/-- An empty store. -/
def exJM : JMState := { jobs := [], file := none }

/-- Timestamp parser accepting exactly one ISO string. -/
def exFromIso : String → Except String Nat :=
  fun s => if s = "2024-01-01T00:00:00" then .ok 100
           else .error ("Invalid isoformat string: " ++ s)

/-- A malformed persisted entry: its status string is not a `JobStatus`. -/
def exBadEntry : RawJobEntry :=
  { job_id := "a", status := "corrupt", created_at := "2024-01-01T00:00:00",
    updated_at := "2024-01-01T00:00:00", video_filename := "a.mp4" }

/-- A well-formed persisted entry. -/
def exGoodEntry : RawJobEntry :=
  { job_id := "b", status := "completed", created_at := "2024-01-01T00:00:00",
    updated_at := "2024-01-01T00:00:00", video_filename := "b.mp4" }

/-- Metadata of a 1.0-second 1920x1080 video, as ffprobe reports it. -/
def exShortVideo : VideoInfo :=
  { duration := 1, width := 1920, height := 1080, fps := 30, codec := "h264",
    file_size := 1000000 }

/-- An upload request carrying the 1.0-second video, with every write
succeeding. -/
def exUploadEnv : UploadEnv :=
  { quality_preset := "balanced", orig_filename := "v.mp4",
    filename_suffix := ".mp4", fileWrite := .ok (), probe := some exShortVideo,
    storeWrites := fun _ => true }

/-- The directory tree of the spec's resolver-selection example. -/
def exFsIterations : List String :=
  ["point_cloud/iteration_001000/point_cloud.ply",
   "point_cloud/iteration_005000/point_cloud.ply"]

/-- A tree with a stray `.ply` at the root above a canonical nested
artifact. -/
def exFsRootStray : List String :=
  ["zzz.ply", "point_cloud/iteration_005000/point_cloud.ply"]

/-- `exTrainEnvOk` but the training process exceeds its 4-hour timeout. -/
def exTrainEnvTimeout : TrainEnv := { exTrainEnvOk with timedOut := true }

/-- A process that would run for 5 seconds and then exit cleanly. -/
def exProcBehavior : ProcBehavior :=
  { runtime := 5, returncode := 0, stdout := "", stderr := "" }

/-- A store holding one persisted job. -/
def exStoreSt : JMState := { jobs := [("job1", exJob)], file := some [("job1", exJob)] }

/-- The stored job after the pipeline finished it. -/
def exJobUpdated : Job := { exJob with status := JobStatus.completed, progress := 1 }

/-- `exStageEnvOk` whose gzip compression fails internally (the input cannot
be stat-ed), so no compressed file is produced. -/
def exStageEnvCompressFail : StageEnv :=
  { exStageEnvOk with
      compressEnv := { statOk := false, writeOk := true,
                       originalSize := 100, compressedSize := 0 } }

set_option maxHeartbeats 1000000 in
/-- Claim C1: for every job and every behaviour of the stage functions and the
store, `process_job` never propagates an exception (it is total by the
faithfulness of the embedding to the outermost `try/except Exception`) and the
job it returns is in status `completed` or `error`. -/
theorem c1_process_job_total_terminal (env : StageEnv) (st0 : JMState) (job0 : Job) :
    (pjJob env st0 job0).status = JobStatus.completed ∨
      (pjJob env st0 job0).status = JobStatus.error := by
  unfold pjJob process_job
  repeat' first
    | (left; rfl)
    | (right; rfl)
    | split

/-- Claim C2, counterexample: a command that runs for 5 seconds under a
1-second timeout yields a `Timeout` result distinct from `ExitError`, but
`run_command` performs no kill, so the subprocess IS left running — refuting
the claim that no subprocess remains running after the timeout is reported. -/
theorem c2_counterexample :
    run_command ["python", "train.py"] (some 1)
        { runtime := 5, returncode := 0, stdout := "", stderr := "" } =
      { result := .error RunError.timeoutError, killed := false } ∧
    processLeftRunning true
        (run_command ["python", "train.py"] (some 1)
          { runtime := 5, returncode := 0, stdout := "", stderr := "" }).killed = true :=
  ⟨rfl, rfl⟩

/-- Claim C2, amended: exceeding the allotted time makes `run_command` yield a
`Timeout` result, a kind distinct from `ExitError`; but `run_command` does not
terminate the external process (its `killed` flag is never set, the child is
left running). Only the training runner's dedicated supervisor path kills its
process on timeout. -/
theorem c2_amended (cmd : List String) (t : Nat) (p : ProcBehavior) (te : TrainEnv)
    (h : t < p.runtime)
    (h1 : te.gpuOk = true) (h2 : te.repoSetupOk = true) (h3 : te.depsOk = true)
    (h4 : te.scenePrepOk = true) (h5 : te.trainScriptExists = true)
    (h6 : te.timedOut = true) :
    (run_command cmd (some t) p).result = .error RunError.timeoutError ∧
    (run_command cmd (some t) p).killed = false ∧
    processLeftRunning true (run_command cmd (some t) p).killed = true ∧
    (∀ rc c so se, RunError.timeoutError ≠ RunError.calledProcessError rc c so se) ∧
    (trainLongsplat te).killedProcess = true ∧
    (trainLongsplat te).success = false := by
  refine ⟨?_, ?_, ?_, ?_, ?_, ?_⟩ <;>
    simp [run_command, h, processLeftRunning, trainLongsplat, h1, h2, h3, h4, h5, h6]

/-- Claim C2, witness for the amended theorem at a concrete 5-second command
with a 1-second timeout. -/
theorem c2_amended_witness :
    (1 < 5) ∧
    ((run_command ["sleep", "5"] (some 1) exProcBehavior).result =
        .error RunError.timeoutError ∧
      (run_command ["sleep", "5"] (some 1) exProcBehavior).killed = false ∧
      processLeftRunning true
          (run_command ["sleep", "5"] (some 1) exProcBehavior).killed = true ∧
      (∀ rc c so se, RunError.timeoutError ≠ RunError.calledProcessError rc c so se) ∧
      (trainLongsplat exTrainEnvTimeout).killedProcess = true ∧
      (trainLongsplat exTrainEnvTimeout).success = false) :=
  ⟨by decide,
   c2_amended ["sleep", "5"] 1 exProcBehavior
     exTrainEnvTimeout (by decide) rfl rfl rfl rfl rfl rfl⟩

/-- Claim C3, counterexample: when the underlying file write fails,
`update_job` still returns normally (success), the in-memory map holds the
updated job, but the persisted file still holds the OLD job — the update was
not persisted before success was observed, and the only trace of the failure
is a swallowed log message, not an error to the caller. -/
theorem c3_counterexample :
    (updateJob 5 false exJobUpdated exStoreSt).1.jobs =
        [("job1", { exJobUpdated with updated_at := 5 })] ∧
    (updateJob 5 false exJobUpdated exStoreSt).1.file = some [("job1", exJob)] ∧
    (updateJob 5 false exJobUpdated exStoreSt).1.file ≠
        some ((updateJob 5 false exJobUpdated exStoreSt).1.jobs) ∧
    (updateJob 5 false exJobUpdated exStoreSt).2.2 = some "Failed to save jobs" :=
  ⟨rfl, rfl, by decide, rfl⟩

/-- Claim C3, amended: `update_job` refreshes `updated_at` and the in-memory
map and synchronously rewrites the whole store file; when the write succeeds
the full snapshot is persisted before returning, but a write failure is caught
and only logged — the call still returns success, so the caller cannot observe
store write failures. -/
theorem c3_amended (now : Nat) (w : Bool) (job : Job) (st : JMState) :
    ((updateJob now w job st).2.1).updated_at = now ∧
    (updateJob now w job st).1.jobs =
        insertAssoc st.jobs job.job_id { job with updated_at := now } ∧
    (updateJob now w job st).1.file =
        (if w then some ((updateJob now w job st).1.jobs) else st.file) ∧
    (updateJob now w job st).2.2 =
        (if w then none else some "Failed to save jobs") := by
  cases w <;> simp [updateJob, saveJobs]

/-- Loading a prefix of parseable entries accumulates them and continues with
the rest of the list. -/
theorem loadJobsLoop_ok_prefix (fromiso : String → Except String Nat)
    (pre : List (String × RawJobEntry)) :
    ∀ l acc, (∀ p ∈ pre, (parseJobEntry fromiso p.2).isOk = true) →
      loadJobsLoop fromiso (pre ++ l) acc =
        loadJobsLoop fromiso l (loadJobsLoop fromiso pre acc).1 := by
  induction pre with
  | nil => intro l acc _h; rfl
  | cons p pre ih =>
    intro l acc h
    obtain ⟨i, e⟩ := p
    have hok := h (i, e) (List.mem_cons_self _ _)
    cases hpe : parseJobEntry fromiso e with
    | error msg => rw [hpe] at hok; simp [Except.isOk, Except.toBool] at hok
    | ok j =>
      simp only [List.cons_append, loadJobsLoop, hpe]
      exact ih l (insertAssoc acc i j) (fun q hq => h q (List.mem_cons_of_mem _ hq))

/-- Claim C5, counterexample: with a malformed first entry followed by a
well-formed one, `_load_jobs` loads NOTHING — the well-formed entry "b"
parses fine on its own, yet the single corrupt entry "a" aborts the load of
everything after it, contradicting "a single corrupt entry never aborts the
load of the remaining entries". -/
theorem c5_counterexample :
    loadJobs exFromIso (some [("a", exBadEntry), ("b", exGoodEntry)]) =
      ([], some "Failed to load jobs: not a valid JobStatus: corrupt") ∧
    (parseJobEntry exFromIso exGoodEntry).isOk = true :=
  ⟨rfl, rfl⟩

/-- Claim C5, amended: the single `try/except` of `_load_jobs` wraps the whole
loop, so the first malformed entry stops the load with one warning: the
well-formed entries BEFORE it are loaded, and it and every entry after it are
dropped. -/
theorem c5_amended (fromiso : String → Except String Nat)
    (pre : List (String × RawJobEntry)) (ib : String) (bad : RawJobEntry)
    (rest : List (String × RawJobEntry)) (msg : String)
    (hpre : ∀ p ∈ pre, (parseJobEntry fromiso p.2).isOk = true)
    (hbad : parseJobEntry fromiso bad = .error msg) :
    loadJobs fromiso (some (pre ++ (ib, bad) :: rest)) =
      ((loadJobs fromiso (some pre)).1, some ("Failed to load jobs: " ++ msg)) := by
  simp only [loadJobs, loadJobsLoop_ok_prefix fromiso pre _ _ hpre, loadJobsLoop, hbad]

/-- Claim C5, witness for the amended theorem on a concrete store file with a
good entry, then a corrupt one, then another good one. -/
theorem c5_amended_witness :
    (∀ p ∈ [("z", exGoodEntry)], (parseJobEntry exFromIso p.2).isOk = true) ∧
    loadJobs exFromIso (some ([("z", exGoodEntry)] ++ ("a", exBadEntry) :: [("b", exGoodEntry)])) =
      ((loadJobs exFromIso (some [("z", exGoodEntry)])).1,
        some ("Failed to load jobs: " ++ "not a valid JobStatus: corrupt")) :=
  ⟨by decide,
   c5_amended exFromIso [("z", exGoodEntry)] "a" exBadEntry [("b", exGoodEntry)]
     "not a valid JobStatus: corrupt" (by decide) rfl⟩

/-- Claim C4, amended: on a training-process failure the innermost diagnostic
(the log tail, e.g. read from `training.log`) is emitted to the backend
LOGGER by `train_longsplat`; the Job's persisted `error_message`, however, is
the fixed generic wrapper "LongSplat training failed. Check logs for
details." — the specific diagnostic is not included in the Job. -/
theorem c4_amended (te : TrainEnv) (tail : String) (env : StageEnv)
    (st0 : JMState) (job0 : Job)
    (h1 : te.gpuOk = true) (h2 : te.repoSetupOk = true) (h3 : te.depsOk = true)
    (h4 : te.scenePrepOk = true) (h5 : te.trainScriptExists = true)
    (h6 : te.timedOut = false) (h7 : te.returncode ≠ 0)
    (h8 : te.logTailRead = .ok tail)
    (henv : env.trainEnv = te) (hx : env.extractFrames = .ok ()) :
    ("Training Log Tail:\n" ++ tail) ∈ (trainLongsplat te).logged ∧
    (pjJob env st0 job0).status = JobStatus.error ∧
    (pjJob env st0 job0).error_message =
      some "LongSplat training failed. Check logs for details." := by
  have hfail : (trainLongsplat te).success = false := by
    simp [trainLongsplat, h1, h2, h3, h4, h5, h6, h7]
  refine ⟨?_, ?_, ?_⟩
  · simp [trainLongsplat, h1, h2, h3, h4, h5, h6, h7, h8]
  · simp [pjJob, process_job, hx, henv, hfail, pipelineErrorExit, pushUpdate,
      updateJob, saveJobs]
  · simp [pjJob, process_job, hx, henv, hfail, pipelineErrorExit, pushUpdate,
      updateJob, saveJobs]

/-- Claim C4, counterexample: the training process fails with log tail
"CUDA error: out of memory", yet the persisted `error_message` is only the
generic wrapper, which does not contain that diagnostic as a substring. -/
theorem c4_counterexample :
    (pjJob exStageEnvTrainFail exJM exJob).status = JobStatus.error ∧
    (pjJob exStageEnvTrainFail exJM exJob).error_message =
        some "LongSplat training failed. Check logs for details." ∧
    ("Training Log Tail:\nCUDA error: out of memory") ∈
        (trainLongsplat exTrainEnvFail).logged ∧
    strContainsSub "LongSplat training failed. Check logs for details."
        "CUDA error: out of memory" = false := by
  refine ⟨rfl, rfl, ?_, rfl⟩
  decide

/-- Claim C4, witness for the amended theorem at the concrete failing
training run. -/
theorem c4_amended_witness :
    (exTrainEnvFail.gpuOk = true ∧ exTrainEnvFail.returncode ≠ 0 ∧
      exTrainEnvFail.logTailRead = .ok "CUDA error: out of memory" ∧
      exStageEnvTrainFail.trainEnv = exTrainEnvFail) ∧
    (("Training Log Tail:\n" ++ "CUDA error: out of memory") ∈
        (trainLongsplat exTrainEnvFail).logged ∧
      (pjJob exStageEnvTrainFail exJM exJob).status = JobStatus.error ∧
      (pjJob exStageEnvTrainFail exJM exJob).error_message =
        some "LongSplat training failed. Check logs for details.") :=
  ⟨⟨rfl, by decide, rfl, rfl⟩,
   c4_amended exTrainEnvFail "CUDA error: out of memory" exStageEnvTrainFail exJM exJob
     rfl rfl rfl rfl rfl rfl (by decide) rfl rfl rfl⟩

/-- Claim C6, counterexample: the 1.0-second video against the 3.0-second
minimum ends in status `Error` with the duration message, and processing
never starts — but the number of external process invocations is 1, not 0:
the validator itself spawns ffprobe to measure the duration before rejecting
the input. -/
theorem c6_counterexample :
    (upload_video defaultSettings exUploadEnv exJM "job1" 7).subprocesses = 1 ∧
    (upload_video defaultSettings exUploadEnv exJM "job1" 7).subprocesses ≠ 0 ∧
    ((upload_video defaultSettings exUploadEnv exJM "job1" 7).job.map Job.status) =
        some JobStatus.error ∧
    ((upload_video defaultSettings exUploadEnv exJM "job1" 7).job.map
        Job.error_message) =
      some (some ("Video too short: 1.0s. Minimum: 3.0s; " ++
        "Not enough frames for reconstruction. Video would produce only 2 frames. " ++
        "Minimum: 10")) ∧
    (upload_video defaultSettings exUploadEnv exJM "job1" 7).backgroundStarted =
        false :=
  ⟨rfl, by decide, rfl, rfl, rfl⟩

/-- Claim C6, amended: an input rejected for violating the duration minimum
ends in status `Error` with a duration-related message, and the pipeline is
never scheduled — no pipeline-stage subprocess runs; but the pre-flight
validation itself spawns exactly one external process (the ffprobe metadata
probe), so the total external-process count on a rejected input is 1, not 0. -/
theorem c6_amended (env : UploadEnv) (jm0 : JMState) (newId : String) (now : Nat)
    (vi : VideoInfo)
    (hw : env.fileWrite = .ok ())
    (hext : asciiLower env.filename_suffix ∈ defaultSettings.ALLOWED_EXTENSIONS)
    (hp : env.probe = some vi)
    (hd : vi.duration < defaultSettings.MIN_VIDEO_DURATION) :
    (upload_video defaultSettings env jm0 newId now).backgroundStarted = false ∧
    (upload_video defaultSettings env jm0 newId now).subprocesses = 1 ∧
    ∃ j, (upload_video defaultSettings env jm0 newId now).job = some j ∧
      j.status = JobStatus.error ∧
      ∃ vv, j.validation = some vv ∧
        ("Video too short: " ++ fmt1 vi.duration ++ "s. Minimum: " ++
          fmt1 defaultSettings.MIN_VIDEO_DURATION ++ "s") ∈ vv.errors ∧
        j.error_message = some (joinSep "; " vv.errors) := by
  refine ⟨?_, ?_, ?_⟩ <;>
    simp [upload_video, hw, hext, hp, hd, createJob, saveJobs, updateJob,
      insertAssoc, validate_video, get_video_info, validateChecks]

/-- Claim C6, witness for the amended theorem at the concrete 1.0-second
upload. -/
theorem c6_amended_witness :
    (exUploadEnv.fileWrite = .ok () ∧
      asciiLower exUploadEnv.filename_suffix ∈ defaultSettings.ALLOWED_EXTENSIONS ∧
      exUploadEnv.probe = some exShortVideo ∧
      exShortVideo.duration < defaultSettings.MIN_VIDEO_DURATION) ∧
    ((upload_video defaultSettings exUploadEnv exJM "job1" 7).backgroundStarted = false ∧
      (upload_video defaultSettings exUploadEnv exJM "job1" 7).subprocesses = 1 ∧
      ∃ j, (upload_video defaultSettings exUploadEnv exJM "job1" 7).job = some j ∧
        j.status = JobStatus.error ∧
        ∃ vv, j.validation = some vv ∧
          ("Video too short: " ++ fmt1 exShortVideo.duration ++ "s. Minimum: " ++
            fmt1 defaultSettings.MIN_VIDEO_DURATION ++ "s") ∈ vv.errors ∧
          j.error_message = some (joinSep "; " vv.errors)) :=
  ⟨⟨rfl, by decide, rfl, by decide⟩,
   c6_amended exUploadEnv exJM "job1" 7 exShortVideo rfl (by decide) rfl (by decide)⟩

set_option maxHeartbeats 4000000 in
/-- Claim C7, amended: even when compression is disabled by configuration,
`process_job` sets and persists the `Compressing` status (at progress 0.92)
before checking `COMPRESS_OUTPUT`; disabling compression only skips the gzip
work (leaving `model_url_compressed` unset), after which the job still
transitions to `Completed`. The `Compressing` state is NOT skipped. -/
theorem c7_amended (env : StageEnv) (st0 : JMState) (job0 : Job)
    (hS : StageSuccess env) (hc : env.compressEnabled = false)
    (hmu : job0.model_url_compressed = none) :
    JobStatus.compressing ∈ (pjTrace env st0 job0).map Job.status ∧
    (pjJob env st0 job0).status = JobStatus.completed ∧
    (pjJob env st0 job0).model_url_compressed = none := by
  obtain ⟨hA, hB, p, hC⟩ := hS
  refine ⟨?_, ?_, ?_⟩ <;>
    cases hD : env.objExport <;>
      simp [pjJob, pjTrace, process_job, hA, hB, hC, hc, hmu, hD, pathIsFalsy,
        pipelineErrorExit, pushUpdate, updateJob, saveJobs]

/-- Claim C7, counterexample: a fully successful run with compression
disabled still passes through the `Compressing` status — refuting "the job's
status never takes the value Compressing" when compression is disabled. -/
theorem c7_counterexample :
    exStageEnvNoCompress.compressEnabled = false ∧
    JobStatus.compressing ∈ (pjTrace exStageEnvNoCompress exJM exJob).map Job.status ∧
    (pjJob exStageEnvNoCompress exJM exJob).status = JobStatus.completed := by
  refine ⟨rfl, ?_, rfl⟩
  decide

/-- Claim C7, witness for the amended theorem at the concrete
compression-disabled run. -/
theorem c7_amended_witness :
    (StageSuccess exStageEnvNoCompress ∧
      exStageEnvNoCompress.compressEnabled = false ∧
      exJob.model_url_compressed = none) ∧
    (JobStatus.compressing ∈ (pjTrace exStageEnvNoCompress exJM exJob).map Job.status ∧
      (pjJob exStageEnvNoCompress exJM exJob).status = JobStatus.completed ∧
      (pjJob exStageEnvNoCompress exJM exJob).model_url_compressed = none) :=
  ⟨⟨⟨rfl, rfl, "model.ply", rfl⟩, rfl, rfl⟩,
   c7_amended exStageEnvNoCompress exJM exJob ⟨rfl, rfl, "model.ply", rfl⟩ rfl rfl⟩

/-- Claim C8, counterexample: with a stray `zzz.ply` at the directory root
above a canonical `point_cloud/iteration_005000/point_cloud.ply`, the code's
resolver (whose first step matches ANY root `.ply` file) picks `zzz.ply`,
while the claimed search order — exact expected filename (`model.ply`) at the
root first, then recursive canonical basename — would pick the nested
canonical artifact. -/
theorem c8_counterexample :
    export_to_ply exFsRootStray "outdir" = .ok "zzz.ply" ∧
    resolverSpec "model.ply" exFsRootStray =
        some "point_cloud/iteration_005000/point_cloud.ply" ∧
    (Except.ok "zzz.ply" : Except String String) ≠
        .ok "point_cloud/iteration_005000/point_cloud.ply" :=
  ⟨rfl, rfl, by decide⟩

/-- Claim C8, amended: the resolver's ordered fallback is (1) ANY `.ply` file
at the directory root (not the exact expected filename), (2) recursive search
for the basename `point_cloud.ply`, (3) recursive search for the `.ply`
extension, selecting the lexicographically last match of the first non-empty
step; on the two-iteration example it selects the `iteration_005000` file;
with root files `model.ply` and `zzz.ply` it selects `zzz.ply`; with no
candidate it raises a not-found error whose message names the directory (the
full listing is only logged, not placed in the error). -/
theorem c8_amended :
    (∀ d, export_to_ply exFsIterations d =
        .ok "point_cloud/iteration_005000/point_cloud.ply") ∧
    (∀ d, export_to_ply ["model.ply", "zzz.ply"] d = .ok "zzz.ply") ∧
    (∀ d, export_to_ply exFsRootStray d = .ok "zzz.ply") ∧
    (∀ d, export_to_ply ["notes.txt"] d = .error ("No PLY file found in " ++ d)) :=
  ⟨fun _ => rfl, fun _ => rfl, fun _ => rfl, fun _ => rfl⟩

set_option maxHeartbeats 4000000 in
/-- Claim C9, amended: for every behaviour of the stages, a job entering the
pipeline at progress 0 has a persisted progress sequence that stays in
[0, 1] and is monotonically non-decreasing; and a fully successful run passes
exactly through Uploaded(0.0) → ExtractingFrames(0.1) → Training(0.3) →
Exporting(0.85) → Compressing(0.92) → Compressing(0.95) → Completed(1.0): one
more persisted checkpoint (progress 0.95, still `Compressing`, before the
optional OBJ export) than the claimed six-point sequence. -/
theorem c9_amended (env : StageEnv) (st0 : JMState) (job0 : Job)
    (h0 : job0.progress = 0) (h1 : job0.status = JobStatus.uploaded) :
    (List.Chain' (fun a b => a.progress ≤ b.progress) (job0 :: pjTrace env st0 job0) ∧
      ∀ j ∈ pjTrace env st0 job0, 0 ≤ j.progress ∧ j.progress ≤ 1) ∧
    (StageSuccess env →
      (job0 :: pjTrace env st0 job0).map (fun j => (j.status, j.progress)) =
        [(JobStatus.uploaded, 0), (JobStatus.extracting_frames, 0.1),
         (JobStatus.training, 0.3), (JobStatus.exporting, 0.85),
         (JobStatus.compressing, 0.92), (JobStatus.compressing, 0.95),
         (JobStatus.completed, 1.0)]) := by
  constructor
  · unfold pjTrace process_job
    repeat' split
    all_goals
      norm_num [pipelineErrorExit, pushUpdate, updateJob, saveJobs, insertAssoc,
        List.chain'_cons, h0]
  · rintro ⟨hA, hB, p, hC⟩
    cases hD : env.compressEnabled <;> cases hE : env.compressExecutor <;>
      cases hF : env.objExport <;>
        simp [pjTrace, process_job, hA, hB, hC, hD, hE, hF, h0, h1, pathIsFalsy,
          pipelineErrorExit, pushUpdate, updateJob, saveJobs]

/-- Claim C9, witness for the amended theorem at the concrete all-success
run. -/
theorem c9_amended_witness :
    (exJob.progress = 0 ∧ exJob.status = JobStatus.uploaded) ∧
    ((List.Chain' (fun a b => a.progress ≤ b.progress)
        (exJob :: pjTrace exStageEnvOk exJM exJob) ∧
      ∀ j ∈ pjTrace exStageEnvOk exJM exJob, 0 ≤ j.progress ∧ j.progress ≤ 1) ∧
    (StageSuccess exStageEnvOk →
      (exJob :: pjTrace exStageEnvOk exJM exJob).map (fun j => (j.status, j.progress)) =
        [(JobStatus.uploaded, 0), (JobStatus.extracting_frames, 0.1),
         (JobStatus.training, 0.3), (JobStatus.exporting, 0.85),
         (JobStatus.compressing, 0.92), (JobStatus.compressing, 0.95),
         (JobStatus.completed, 1.0)])) :=
  ⟨⟨rfl, rfl⟩, c9_amended exStageEnvOk exJM exJob rfl rfl⟩

/-- Claim C9, counterexample: the successful run does NOT pass exactly through
the claimed six-checkpoint sequence — the persisted sequence has a seventh
checkpoint, (Compressing, 0.95). -/
theorem c9_counterexample :
    (exJob :: pjTrace exStageEnvOk exJM exJob).map (fun j => (j.status, j.progress)) ≠
      [(JobStatus.uploaded, 0), (JobStatus.extracting_frames, 0.1),
       (JobStatus.training, 0.3), (JobStatus.exporting, 0.85),
       (JobStatus.compressing, 0.92), (JobStatus.completed, 1.0)] := by
  intro h
  have hlen : ((exJob :: pjTrace exStageEnvOk exJM exJob).map
      (fun j => (j.status, j.progress))).length = 7 := rfl
  rw [h] at hlen
  simp at hlen

set_option maxHeartbeats 4000000 in
/-- Claim C10: `compress_ply_gzip` is total — on any internal failure (stat
failure, write failure, or the zero-division on an empty input) it returns
the ORIGINAL input path instead of raising; consequently, whenever compression
is enabled and the pipeline reaches the compression step with the executor
call returning normally, the completed job has `model_url_compressed` set,
regardless of whether a compressed file was actually produced. -/
theorem c10_compress_total (env : StageEnv) (st0 : JMState) (job0 : Job)
    (hS : StageSuccess env) (hc : env.compressEnabled = true)
    (he : env.compressExecutor = .ok ()) :
    (∀ e inp, (e.statOk = false ∨ e.writeOk = false ∨ e.originalSize = 0) →
      compressPlyGzip e inp none = inp) ∧
    (pjJob env st0 job0).status = JobStatus.completed ∧
    (pjJob env st0 job0).model_url_compressed =
      some ("/static/models/" ++ job0.job_id ++ ".ply.gz") := by
  obtain ⟨hA, hB, p, hC⟩ := hS
  refine ⟨?_, ?_, ?_⟩
  · rintro e inp (h | h | h) <;> simp [compressPlyGzip, h]
  · cases hD : env.objExport <;>
      simp [pjJob, process_job, hA, hB, hC, hc, he, hD, pathIsFalsy,
        pipelineErrorExit, pushUpdate, updateJob, saveJobs]
  · cases hD : env.objExport <;>
      simp [pjJob, process_job, hA, hB, hC, hc, he, hD, pathIsFalsy,
        pipelineErrorExit, pushUpdate, updateJob, saveJobs]

/-- Claim C10, witness: a run whose gzip compression fails internally still
completes with `model_url_compressed` set, and `compress_ply_gzip` returned
the original path. -/
theorem c10_compress_total_witness :
    (StageSuccess exStageEnvCompressFail ∧
      exStageEnvCompressFail.compressEnabled = true ∧
      exStageEnvCompressFail.compressExecutor = .ok () ∧
      exStageEnvCompressFail.compressEnv.statOk = false) ∧
    (compressPlyGzip exStageEnvCompressFail.compressEnv "model.ply" none = "model.ply" ∧
      (pjJob exStageEnvCompressFail exJM exJob).status = JobStatus.completed ∧
      (pjJob exStageEnvCompressFail exJM exJob).model_url_compressed =
        some ("/static/models/" ++ exJob.job_id ++ ".ply.gz")) :=
  ⟨⟨⟨rfl, rfl, "model.ply", rfl⟩, rfl, rfl, rfl⟩,
   ⟨(c10_compress_total exStageEnvCompressFail exJM exJob
       ⟨rfl, rfl, "model.ply", rfl⟩ rfl rfl).1
       exStageEnvCompressFail.compressEnv "model.ply" (Or.inl rfl),
    (c10_compress_total exStageEnvCompressFail exJM exJob
       ⟨rfl, rfl, "model.ply", rfl⟩ rfl rfl).2.1,
    (c10_compress_total exStageEnvCompressFail exJM exJob
       ⟨rfl, rfl, "model.ply", rfl⟩ rfl rfl).2.2⟩⟩
